import Mathlib

/-!
Verification of the CEA-608 closed-caption decoder library (`lib/cc_decode.py`).

This file shallowly embeds the pure data model and the state-machine
transitions of the decoder and proves properties of them:

* the character / control-code tables (`CC_TABLE`, `ALL_CC_CONTROL_CODES`,
  `NO_PARITY_TO_ODD_PARITY`, ...) are transcribed literally, and derived
  tables are generated by the same list computations the source uses;
* the per-row parity policy of `extract_closed_caption_bytes` is embedded as
  `classifyRow`;
* the caption-track state machine (`CaptionTrack.add_data` and its
  SRT-track overrides) is embedded as a pure transition function `addData`
  on a `TrackState` record holding the fields the transitions touch
  (mode, prev_code, the four buffers, the text cursor, roll_up_length);
  file output and frame-counter bookkeeping are not modelled;
* the XDS packet-gathering loop of `decode_xds_packets` is embedded as a
  step function `xds_step`;
* the SCC drop-frame timecode of `SCCCaptionTrack._get_timecode` is
  embedded twice: once with Python 3 true division (floats modelled as
  exact rationals) and once with the integer-arithmetic drop-frame
  formula;
* `compute_xds_packet_checksum` and `TextCaptionTrack.handle_tab` are
  embedded directly.

Python strings are embedded as `String`, Python integers as `Nat`/`Int`
(`Int` where subtraction or `&` on possibly-negative values occurs), and
Python dicts as association lists whose key sets are pairwise disjoint in
this code base, so `List.lookup` agrees with dict lookup.
-/

/-! ### String helpers (Python `in`, `str.endswith`, regex digit captures) -/

/-- The `matchAt pat s` : does `pat` occur as a prefix of `s`? -/
def matchAt : List Char → List Char → Bool
  | [], _ => true
  | _ :: _, [] => false
  | a :: as, b :: bs => a == b && matchAt as bs

/-- The `findSub s pat` : does `pat` occur as a contiguous substring of `s`?
Embeds the Python membership test `pat in s`. -/
def findSub : List Char → List Char → Bool
  | [], pat => matchAt pat []
  | c :: cs, pat => matchAt pat (c :: cs) || findSub cs pat

/-- Python `pat in s` on strings. -/
def strContains (s pat : String) : Bool :=
  findSub s.data pat.data

/-- Python `s.endswith(pat)`. -/
def strEndsWith (s pat : String) : Bool :=
  matchAt pat.data.reverse s.data.reverse

/-- decimal digit test, as in the regex class `\d` over these labels -/
def isDigitCh (c : Char) : Bool :=
  48 ≤ c.toNat && c.toNat ≤ 57

/-- the longest run of leading decimal digits -/
def takeDigits : List Char → List Char
  | [] => []
  | c :: cs => if isDigitCh c then c :: takeDigits cs else []

/-- numeric value of a digit run, as Python `int(...)` of the capture -/
def digitsToNat (ds : List Char) : Nat :=
  ds.foldl (fun acc c => acc * 10 + (c.toNat - 48)) 0

/-- If `s` starts with `pat` followed by at least one digit, the value of
the maximal digit run after `pat` (a regex capture `pat(\d+)` anchored at
the start of `s`). -/
def numAfterAt (pat s : List Char) : Option Nat :=
  if matchAt pat s then
    match takeDigits (s.drop pat.length) with
    | [] => none
    | ds => some (digitsToNat ds)
  else none

/-- all captures of `pat(\d+)` in `s`, left to right -/
def allNumsAfter (pat : List Char) : List Char → List Nat
  | [] => []
  | c :: cs =>
    match numAfterAt pat (c :: cs) with
    | some n => n :: allNumsAfter pat cs
    | none => allNumsAfter pat cs

/-- first capture of `pat(\d+)` in `s`: the Python search `re.search` for `pat(\d+)` in `s`. -/
def firstNumAfter (pat s : List Char) : Option Nat :=
  (allNumsAfter pat s).head?

/-- last capture of `pat(\d+)` in `s`: the Python search `re.search` for `.*pat(\d+)` in `s`
(the greedy `.*` selects the last occurrence; these labels hold no
newline). -/
def lastNumAfter (pat s : List Char) : Option Nat :=
  (allNumsAfter pat s).getLast?

/-- The `n` spaces (Python `" " * n`); the general `str * n`. -/
def repeatStr (s : String) : Nat → String
  | 0 => ""
  | n + 1 => s ++ repeatStr s n

/-- lowercase hex digit -/
def hexDigitCh (n : Nat) : Char :=
  if n < 10 then Char.ofNat (48 + n) else Char.ofNat (87 + n)

/-- Python `%02x` formatting of `n` for byte values `n < 256` -/
def hex2 (n : Nat) : String :=
  String.mk [hexDigitCh (n / 16 % 16), hexDigitCh (n % 16)]

/-! ### Character tables (`lib/cc_decode.py`, lines 65–163) -/

/-- The `CC_TABLE` literal entries plus the three shared ASCII ranges
`(0x41,0x5B)`, `(0x61,0x7B)`, `(0x30,0x3A)`. -/
def CC_TABLE : List (Nat × String) :=
  [(0x00, ""),
   (0x20, " "), (0x21, "!"), (0x22, "\""), (0x23, "#"), (0x24, "$"),
   (0x25, "%"), (0x26, "&"), (0x27, "\x27"), (0x28, "("), (0x29, ")"),
   (0x2A, "á"), (0x2B, "+"), (0x2C, ","), (0x2D, "-"), (0x2E, "."),
   (0x2F, "/"), (0x3A, ":"), (0x3B, ";"), (0x3C, "<"), (0x3D, "="),
   (0x3E, ">"), (0x3F, "?"), (0x40, "@"), (0x5B, "["), (0x5C, "é"),
   (0x5D, "]"), (0x5E, "í"), (0x5F, "ó"), (0x60, "ú"), (0x7B, "ç"),
   (0x7C, "÷"), (0x7D, "Ñ"), (0x7E, "ñ"), (0x7F, "■")]
  ++ ([(0x41, 0x5B), (0x61, 0x7B), (0x30, 0x3A)].flatMap fun nr =>
       (List.range (nr.2 - nr.1)).map fun i =>
         (nr.1 + i, String.mk [Char.ofNat (nr.1 + i)]))

/-- two-byte special characters (second byte values) -/
def SPECIAL_CHARS_TABLE : List (Nat × String) :=
  [(0x30, "®"), (0x31, "°"), (0x32, "½"), (0x33, "¿"), (0x34, "™"),
   (0x35, "¢"), (0x36, "£"), (0x37, "♪"), (0x38, "à"), (0x39, " "),
   (0x3A, "è"), (0x3B, "â"), (0x3C, "ê"), (0x3D, "î"), (0x3E, "ô"),
   (0x3F, "û")]

/-- extended western european set, Spanish/French page -/
def EXTENDED_SPANISH_FRENCH : List (Nat × String) :=
  [(0x20, "Á"), (0x21, "É"), (0x22, "Ó"), (0x23, "Ú"), (0x24, "Ü"),
   (0x25, "ü"), (0x26, "´"), (0x27, "¡"), (0x28, "*"), (0x29, "\x27"),
   (0x2A, "─"), (0x2B, "©"), (0x2C, "℠"), (0x2D, "•"), (0x2E, "“"),
   (0x2F, "”"), (0x30, "À"), (0x31, "Â"), (0x32, "Ç"), (0x33, "È"),
   (0x34, "Ê"), (0x35, "Ë"), (0x36, "ë"), (0x37, "Î"), (0x38, "Ï"),
   (0x39, "ï"), (0x3A, "Ô"), (0x3B, "Ù"), (0x3C, "ù"), (0x3D, "Û"),
   (0x3E, "«"), (0x3F, "»")]

/-- extended western european set, Portuguese/German/Danish page -/
def EXTENDED_PORTUGUESE_GERMAN_DANISH : List (Nat × String) :=
  [(0x20, "Ã"), (0x21, "ã"), (0x22, "Í"), (0x23, "Ì"), (0x24, "ì"),
   (0x25, "Ò"), (0x26, "ò"), (0x27, "Õ"), (0x28, "õ"), (0x29, "\x7b"),
   (0x2A, "\x7d"), (0x2B, "\\"), (0x2C, "^"), (0x2D, "_"), (0x2E, "|"),
   (0x2F, "~"), (0x30, "Ä"), (0x31, "ä"), (0x32, "Ö"), (0x33, "ö"),
   (0x34, "ß"), (0x35, "¥"), (0x36, "¤"), (0x37, "|"), (0x38, "Å"),
   (0x39, "å"), (0x3A, "Ø"), (0x3B, "ø"), (0x3C, "┌"), (0x3D, "┐"),
   (0x3E, "└"), (0x3F, "┘")]

/-- The `ALL_SPECIAL_CHARS`: the CC1 and CC2 keyings of the two-byte tables
(first bytes 0x11/0x12/0x13 and 0x19/0x1A/0x1B). All key sets are
disjoint, so concatenation models the dict updates. -/
def ALL_SPECIAL_CHARS : List ((Nat × Nat) × String) :=
  (SPECIAL_CHARS_TABLE.map fun ab => ((0x11, ab.1), ab.2))
  ++ (EXTENDED_SPANISH_FRENCH.map fun ab => ((0x12, ab.1), ab.2))
  ++ (EXTENDED_PORTUGUESE_GERMAN_DANISH.map fun ab => ((0x13, ab.1), ab.2))
  ++ (SPECIAL_CHARS_TABLE.map fun ab => ((0x19, ab.1), ab.2))
  ++ (EXTENDED_SPANISH_FRENCH.map fun ab => ((0x1A, ab.1), ab.2))
  ++ (EXTENDED_PORTUGUESE_GERMAN_DANISH.map fun ab => ((0x1B, ab.1), ab.2))

/-! ### Control-code tables (`lib/cc_decode.py`, lines 165–278) -/

/-- The `CONTROL_CODES` -/
def CONTROL_CODES : List ((Nat × Nat) × String) :=
  [((0x14, 0x20), "Resume Caption Loading"), ((0x14, 0x21), "Backspace"),
   ((0x14, 0x22), "Reserved (Alarm Off)"), ((0x14, 0x23), "Reserved (Alarm On)"),
   ((0x14, 0x24), "Delete to End Of Row"), ((0x14, 0x25), "Roll-Up Captions-2 Rows"),
   ((0x14, 0x26), "Roll-Up Captions-3 Rows"), ((0x14, 0x27), "Roll-Up Captions-4 Rows"),
   ((0x14, 0x28), "Flash On"), ((0x14, 0x29), "Resume Direct Captioning"),
   ((0x14, 0x2A), "Text Restart"), ((0x14, 0x2B), "Resume Text Display"),
   ((0x14, 0x2C), "Erase Displayed Memory"), ((0x14, 0x2D), "Carriage Return"),
   ((0x14, 0x2E), "Erase Non-Displayed Memory"), ((0x14, 0x2F), "End of Caption (flip memory)"),
   ((0x17, 0x21), "Tab Offset 1"), ((0x17, 0x22), "Tab Offset 2"),
   ((0x17, 0x23), "Tab Offset 3")]

/-- The `BACKGROUND_COLOR_CODES` -/
def BACKGROUND_COLOR_CODES : List (Nat × String) :=
  [(0x20, "Background White"),
   (0x21, "Background Semi-Transparent White"),
   (0x22, "Background Green"),
   (0x23, "Background Semi-Transparent White"),
   (0x24, "Background Blue"),
   (0x25, "Background Semi-Transparent Blue"),
   (0x26, "Background Cyan"),
   (0x27, "Background Semi-Transparent Cyan"),
   (0x28, "Background Red"),
   (0x29, "Background Semi-Transparent Red"),
   (0x2A, "Background Yellow"),
   (0x2B, "Background Semi-Transparent Yellow"),
   (0x2C, "Background Magenta"),
   (0x2D, "Background Semi-Transparent Magenta"),
   (0x2E, "Background Black"),
   (0x2F, "Background Semi-Transparent Black")]

/-- The `CC1_BACKGROUND_CHARS` (also CC3) -/
def CC1_BACKGROUND_CHARS : List ((Nat × Nat) × String) :=
  (BACKGROUND_COLOR_CODES.map fun xy => ((0x10, xy.1), xy.2))
  ++ [((0x17, 0x2D), "Background Transparent"),
      ((0x17, 0x2E), "Foreground Black "),
      ((0x17, 0x2F), "Foreground Black Underline")]

/-- The `CC2_BACKGROUND_CHARS` (also CC4); note the source keys the
transparent-background code at `(0x1F, 0xAD)`. -/
def CC2_BACKGROUND_CHARS : List ((Nat × Nat) × String) :=
  (BACKGROUND_COLOR_CODES.map fun xy => ((0x18, xy.1), xy.2))
  ++ [((0x1F, 0xAD), "Background Transparent"),
      ((0x1F, 0x2E), "Foreground Black "),
      ((0x1F, 0x2F), "Foreground Black Underline")]

/-- The `ROLL_UP_LEN` -/
def ROLL_UP_LEN : List (Nat × Nat) :=
  [(0x25, 2), (0x26, 3), (0x27, 4)]

/-- The `MID_ROW_CODES` -/
def MID_ROW_CODES : List ((Nat × Nat) × String) :=
  [((0x11, 0x20), "Mid-row: White"), ((0x11, 0x21), "Mid-row: White Underline"),
   ((0x11, 0x22), "Mid-row: Green"), ((0x11, 0x23), "Mid-row: Green Underline"),
   ((0x11, 0x24), "Mid-row: Blue"), ((0x11, 0x25), "Mid-row: Blue Underline"),
   ((0x11, 0x26), "Mid-row: Cyan"), ((0x11, 0x27), "Mid-row: Cyan Underline"),
   ((0x11, 0x28), "Mid-row: Red"), ((0x11, 0x29), "Mid-row: Red Underline"),
   ((0x11, 0x2A), "Mid-row: Yellow"), ((0x11, 0x2B), "Mid-row: Yellow Underline"),
   ((0x11, 0x2C), "Mid-row: Magenta"), ((0x11, 0x2D), "Mid-row: Magenta Underline"),
   ((0x11, 0x2E), "Mid-row: Italics"), ((0x11, 0x2F), "Mid-row: Italics Underline")]

/-- The `PREAMBLE_ODD` (preamble address codes for odd columns) -/
def PREAMBLE_ODD : List (Nat × String) :=
  [(0x40, "Pre: White"), (0x41, "Pre: White Underline"),
   (0x42, "Pre: Green"), (0x43, "Pre: Green Underline"),
   (0x44, "Pre: Blue"), (0x45, "Pre: Blue Underline"),
   (0x46, "Pre: Cyan"), (0x47, "Pre: Cyan Underline"),
   (0x48, "Pre: Red"), (0x49, "Pre: Red Underline"),
   (0x4A, "Pre: Yellow"), (0x4B, "Pre: Yellow Underline"),
   (0x4C, "Pre: Magenta"), (0x4D, "Pre: Magenta Underline"),
   (0x4E, "Pre: White Italics"), (0x4F, "Pre: White Italics Underline"),
   (0x50, "Pre: Indent 0"), (0x51, "Pre: Indent 0 Underline"),
   (0x52, "Pre: Indent 4"), (0x53, "Pre: Indent 4 Underline"),
   (0x54, "Pre: Indent 8"), (0x55, "Pre: Indent 8 Underline"),
   (0x56, "Pre: Indent 12"), (0x57, "Pre: Indent 12 Underline"),
   (0x58, "Pre: Indent 16"), (0x59, "Pre: Indent 16 Underline"),
   (0x5A, "Pre: Indent 20"), (0x5B, "Pre: Indent 20 Underline"),
   (0x5C, "Pre: Indent 24"), (0x5D, "Pre: Indent 24 Underline"),
   (0x5E, "Pre: Indent 28"), (0x5F, "Pre: Indent 28 Underline")]

/-- The `EVEN_PREAMBLE = {a + 0x20: b for (a, b) in PREAMBLE_ODD.items()}` -/
def EVEN_PREAMBLE : List (Nat × String) :=
  PREAMBLE_ODD.map fun ab => (ab.1 + 0x20, ab.2)

/-- The `CC1_CONTROL_CODES` -/
def CC1_CONTROL_CODES : List ((Nat × Nat) × String) :=
  CONTROL_CODES.map fun ab => (ab.1, "CC1 " ++ ab.2)

/-- The `CC2_CONTROL_CODES`; `a[0] == 0x14 and 0x1C or 0x1F` maps first byte
0x14 to 0x1C and anything else (0x17 here) to 0x1F. -/
def CC2_CONTROL_CODES : List ((Nat × Nat) × String) :=
  CONTROL_CODES.map fun ab =>
    ((if ab.1.1 == 0x14 then 0x1C else 0x1F, ab.1.2), "CC2 " ++ ab.2)

/-- The `CC1_MID_ROW_CODES` -/
def CC1_MID_ROW_CODES : List ((Nat × Nat) × String) :=
  MID_ROW_CODES.map fun ab => ((0x11, ab.1.2), "CC1 " ++ ab.2)

/-- The `CC2_MID_ROW_CODES` -/
def CC2_MID_ROW_CODES : List ((Nat × Nat) × String) :=
  MID_ROW_CODES.map fun ab => ((0x19, ab.1.2), "CC2 " ++ ab.2)

/-- The `CC1_PREAMBLE_COLS` -/
def CC1_PREAMBLE_COLS : List Nat :=
  [0x11, 0x11, 0x12, 0x12, 0x15, 0x15, 0x16, 0x16, 0x17, 0x17, 0x10, 0x13,
   0x13, 0x14, 0x14]

/-- The `CC2_PREAMBLE_COLS` -/
def CC2_PREAMBLE_COLS : List Nat :=
  [0x19, 0x19, 0x1A, 0x1A, 0x1D, 0x1D, 0x1E, 0x1E, 0x1F, 0x1F, 0x18, 0x1B,
   0x1B, 0x1C, 0x1C]

/-- The `COL_PREAMBLE`: which of the odd/even preamble tables applies to each
of the 15 caption rows. -/
def COL_PREAMBLE : List (List (Nat × String)) :=
  [PREAMBLE_ODD, EVEN_PREAMBLE, PREAMBLE_ODD, EVEN_PREAMBLE, PREAMBLE_ODD,
   EVEN_PREAMBLE, PREAMBLE_ODD, EVEN_PREAMBLE, PREAMBLE_ODD, EVEN_PREAMBLE,
   PREAMBLE_ODD, PREAMBLE_ODD, EVEN_PREAMBLE, PREAMBLE_ODD, EVEN_PREAMBLE]

/-- The `_cc_preamble_table()`: the label is `CC1 %s row %d` formatted with the text and `col+1`
(resp. `CC2`). -/
def ccPreambleTable : List ((Nat × Nat) × String) :=
  (List.range COL_PREAMBLE.length).flatMap fun col =>
    (COL_PREAMBLE.getD col []).flatMap fun rc =>
      [((CC1_PREAMBLE_COLS.getD col 0, rc.1),
        "CC1 " ++ rc.2 ++ " row " ++ toString (col + 1)),
       ((CC2_PREAMBLE_COLS.getD col 0, rc.1),
        "CC2 " ++ rc.2 ++ " row " ++ toString (col + 1))]

/-- The `ALL_CC_CONTROL_CODES`: the preamble table updated with the control,
mid-row and background tables. All key sets are pairwise disjoint (the
second bytes of the preamble table lie in `[0x40,0x7F]`, the rest in
`[0x20,0x2F]` plus `0xAD`, and within those the first bytes separate
the tables), so concatenation models the sequence of dict updates. -/
def ALL_CC_CONTROL_CODES : List ((Nat × Nat) × String) :=
  ccPreambleTable ++ CC1_CONTROL_CODES ++ CC2_CONTROL_CODES
  ++ CC1_MID_ROW_CODES ++ CC2_MID_ROW_CODES
  ++ CC1_BACKGROUND_CHARS ++ CC2_BACKGROUND_CHARS

/-- The `NO_PARITY_TO_ODD_PARITY` (literal 256-entry table) -/
def NO_PARITY_TO_ODD_PARITY : List Nat :=
  [0x80, 0x01, 0x02, 0x83, 0x04, 0x85, 0x86, 0x07, 0x08, 0x89, 0x8a, 0x0b, 0x8c, 0x0d, 0x0e, 0x8f,
   0x10, 0x91, 0x92, 0x13, 0x94, 0x15, 0x16, 0x97, 0x98, 0x19, 0x1a, 0x9b, 0x1c, 0x9d, 0x9e, 0x1f,
   0x20, 0xa1, 0xa2, 0x23, 0xa4, 0x25, 0x26, 0xa7, 0xa8, 0x29, 0x2a, 0xab, 0x2c, 0xad, 0xae, 0x2f,
   0xb0, 0x31, 0x32, 0xb3, 0x34, 0xb5, 0xb6, 0x37, 0x38, 0xb9, 0xba, 0x3b, 0xbc, 0x3d, 0x3e, 0xbf,
   0x40, 0xc1, 0xc2, 0x43, 0xc4, 0x45, 0x46, 0xc7, 0xc8, 0x49, 0x4a, 0xcb, 0x4c, 0xcd, 0xce, 0x4f,
   0xd0, 0x51, 0x52, 0xd3, 0x54, 0xd5, 0xd6, 0x57, 0x58, 0xd9, 0xda, 0x5b, 0xdc, 0x5d, 0x5e, 0xdf,
   0xe0, 0x61, 0x62, 0xe3, 0x64, 0xe5, 0xe6, 0x67, 0x68, 0xe9, 0xea, 0x6b, 0xec, 0x6d, 0x6e, 0xef,
   0x70, 0xf1, 0xf2, 0x73, 0xf4, 0x75, 0x76, 0xf7, 0xf8, 0x79, 0x7a, 0xfb, 0x7c, 0xfd, 0xfe, 0x7f]

/-! ### Byte-pair classification (`is_control`, `decode_byte_pair`) -/

/-- The `is_control(byte1, byte2)` -/
def is_control (byte1 byte2 : Nat) : Bool :=
  (List.lookup (byte1, byte2) ALL_CC_CONTROL_CODES).isSome

/-- The `decode_byte_pair(control, byte1, byte2, default_unicode)`.
Returns `none` exactly when Python returns `None` (a control pair absent
from the table). -/
def decode_byte_pair (control : Bool) (byte1 byte2 : Nat)
    (default_unicode : Bool) : Option String :=
  if control then List.lookup (byte1, byte2) ALL_CC_CONTROL_CODES
  else
    match List.lookup (byte1, byte2) ALL_SPECIAL_CHARS with
    | some s => some s
    | none =>
      some ((List.lookup byte1 CC_TABLE).getD
              (if default_unicode then ("?b1(") ++ hex2 byte1 ++ (")") else "")
            ++ (List.lookup byte2 CC_TABLE).getD
              (if default_unicode then ("?b2(") ++ hex2 byte2 ++ (")") else ""))

/-! ### Decoded rows and the parity policy of the slicer
(`extract_closed_caption_bytes`, lines 709–731) -/

/-- One classified row as appended to `decoded_rows`:
`(row_num, code, control, b1, b1_parity, b2, b2_parity)`. -/
structure Row where
  row_num : Nat
  code : Option String
  control : Bool
  byte1 : Nat
  byte1_parity : Bool
  byte2 : Nat
  byte2_parity : Bool
deriving Repr, DecidableEq

/-- The loop body of `extract_closed_caption_bytes` for one slicer output
`(row_num, b1, b1_parity, b2, b2_parity)`; `none` models `continue`. -/
def classifyRow (row_num b1 : Nat) (b1_parity : Bool) (b2 : Nat)
    (b2_parity : Bool) : Option Row :=
  let control := is_control b1 b2
  if !b2_parity && control then none
  else
    let b2' := if b2_parity then b2 else 0x7f
    let control' := if b1_parity then control else false
    let b1' := if b1_parity then b1 else 0x7f
    some { row_num := row_num,
           code := decode_byte_pair control' b1' b2' true,
           control := control',
           byte1 := b1', byte1_parity := b1_parity,
           byte2 := b2', byte2_parity := b2_parity }

/-- The `extract_closed_caption_bytes` applied to the list of decoded slicer
rows (the sync/slice stage itself operates on floating-point scanlines
and is not modelled). -/
def extract_closed_caption_bytes
    (rows : List (Nat × Nat × Bool × Nat × Bool)) : List Row :=
  rows.filterMap fun r => classifyRow r.1 r.2.1 r.2.2.1 r.2.2.2.1 r.2.2.2.2

/-! ### `TextCaptionTrack.handle_tab` (lines 1095–1103) -/

/-- The `handle_tab(code, caption_text, space_character)`. The source computes
`tab = max(32 - len(caption_text), tab)` and appends that many copies of
`space_character`. -/
def handle_tab (code caption_text space_character : String) : String :=
  if strContains code ("Tab") then
    match firstNumAfter ("Tab Offset ").data code.data with
    | some t =>
      let tab : Int := max (32 - (caption_text.length : Int)) (t : Int)
      caption_text ++ repeatStr space_character tab.toNat
    | none => caption_text
  else caption_text

/-! ### `compute_xds_packet_checksum` (lines 1588–1596) -/

/-- The 7-bit twos-complement mapping: `128 - b if (b & 0x7f) != 0 else b`.
`Int.land` has the Python bitwise-and semantics on negative numbers. -/
def twos_complement (b : Int) : Int :=
  if Int.land b 0x7f ≠ 0 then 128 - b else b

/-- The `compute_xds_packet_checksum(packet_bytes)`: the whole packet must sum
to zero in 7-bit twos-complement; the empty packet is rejected. -/
def compute_xds_packet_checksum (packet_bytes : List (Int × Int)) : Bool :=
  match packet_bytes with
  | [] => false
  | _ =>
    Int.land ((packet_bytes.map fun p =>
      twos_complement p.1 + twos_complement p.2).sum) 0x7f == 0

/-! ### XDS packet gathering (`decode_xds_packets`, lines 1826–1847) -/

/-- Gather state of the XDS loop: the `gather_xds_bytes` flag, the packet
buffer, and the list of packets handed to `describe_xds_packet` so far. -/
structure XdsState where
  gather : Bool
  packetbuf : List (Nat × Nat)
  emitted : List (List (Nat × Nat))
deriving Repr, DecidableEq

/-- initial gather state -/
def xdsInit : XdsState := ⟨false, [], []⟩

/-- The body of the XDS loop for one byte pair on the XDS row (a row with
`code is not None`): all-zero stuffing is skipped; `b1 <= 0x0e` begins
gathering; while gathering every pair is buffered; `b1 == 0x0f` hands the
buffer to `describe_xds_packet` and clears it. -/
def xds_step (st : XdsState) (p : Nat × Nat) : XdsState :=
  if p.1 == 0 && p.2 == 0 then st
  else
    let gather := if p.1 ≤ 0x0e then true else st.gather
    let buf := if gather then st.packetbuf ++ [p] else st.packetbuf
    if p.1 == 0x0f then ⟨false, [], st.emitted ++ [buf]⟩
    else ⟨gather, buf, st.emitted⟩

/-- the XDS gather loop over a pair sequence -/
def xds_run (ps : List (Nat × Nat)) : XdsState :=
  ps.foldl xds_step xdsInit

/-! ### SCC drop-frame timecode (`SCCCaptionTrack._get_timecode`,
lines 1040–1046) -/

/-- two-digit rendering, Python `%02d` of a non-negative value -/
def pad2 (n : Int) : String :=
  (if n < 10 then "0" else "") ++ toString n

/-- An exact rational, used to model the Python float computations in
`_get_timecode`: a numerator over a positive denominator (all
denominators below are products of positive literals). At the inputs
compared in the theorems the values are far from the truncation
boundaries, so IEEE double rounding cannot change the rendered digits
and the exact-rational model renders the same string the float code
does. -/
structure PyNum where
  num : Int
  den : Int
deriving Repr, DecidableEq

/-- an integer as a `PyNum` -/
def pyOfInt (i : Int) : PyNum := ⟨i, 1⟩

/-- addition -/
def pyAdd (a b : PyNum) : PyNum :=
  ⟨a.num * b.den + b.num * a.den, a.den * b.den⟩

/-- subtraction -/
def pySub (a b : PyNum) : PyNum :=
  ⟨a.num * b.den - b.num * a.den, a.den * b.den⟩

/-- multiplication by an integer literal -/
def pyMulNat (k : Nat) (a : PyNum) : PyNum :=
  ⟨k * a.num, a.den⟩

/-- Python float division by a positive integer literal -/
def pyDivNat (a : PyNum) (k : Nat) : PyNum :=
  ⟨a.num, a.den * k⟩

/-- comparison (valid because denominators stay positive) -/
def pyLt (a b : PyNum) : Bool :=
  a.num * b.den < b.num * a.den

/-- Python `max(a, b)`: `b` if `a < b` else `a` -/
def pyMax (a b : PyNum) : PyNum :=
  if pyLt a b then b else a

/-- The `floor`, also Python `int()`/`%02d` truncation for the non-negative
values rendered here -/
def pyFloor (a : PyNum) : Int :=
  Int.fdiv a.num a.den

/-- Python float `x % y` for a positive integer `y`:
`x - y * floor(x / y)`. -/
def pyFloatMod (x : PyNum) (y : Nat) : PyNum :=
  pySub x (pyMulNat y (pyOfInt (pyFloor (pyDivNat x y))))

/-- The `_get_timecode(frames)` as the Python 3 source executes it: `/` is
true division, so `frame_number` and everything derived from it are
floats (modelled exactly as `PyNum` rationals), and `%02d` truncates
them. -/
def scc_get_timecode (frames : Nat) : String :=
  let frame_number : PyNum :=
    pyAdd (pyAdd (pyOfInt frames) (pyMulNat 18 (pyDivNat (pyOfInt frames) 17982)))
      (pyMulNat 2 (pyMax (pyDivNat (pyOfInt (((frames % 17982 : Nat) : Int) - 2)) 1798)
        (pyOfInt 0)))
  let frs := pyFloatMod frame_number 30
  let s := pyFloatMod (pyDivNat frame_number 30) 60
  let m := pyFloatMod (pyDivNat (pyDivNat frame_number 30) 60) 60
  let h := pyFloatMod (pyDivNat (pyDivNat (pyDivNat frame_number 30) 60) 60) 24
  pad2 (pyFloor h) ++ (":") ++ pad2 (pyFloor m) ++ (":")
    ++ pad2 (pyFloor s) ++ (";") ++ pad2 (pyFloor frs)

/-- The integer-arithmetic drop-frame formula of the claim (what the same
source line computes under Python 2, where `/` on ints is floor
division): `frame_number = f + 18*(f div 17982) + 2*max((f mod 17982 - 2)
div 1798, 0)`, rendered `HH:MM:SS;FF` at 30 fps. -/
def scc_timecode_claim (f : Nat) : String :=
  let drop : Int :=
    (f : Int) + 18 * ((f : Int) / 17982)
      + 2 * max (Int.fdiv (((f % 17982 : Nat) : Int) - 2) 1798) 0
  let fn := drop.toNat
  pad2 ((fn / 30 / 60 / 60) % 24) ++ (":") ++ pad2 ((fn / 30 / 60) % 60)
    ++ (":") ++ pad2 ((fn / 30) % 60) ++ (";") ++ pad2 (fn % 30)

/-! ### Caption-track state machine
(`CaptionTrack` lines 813–967, `TextCaptionTrack` lines 1052–1194,
`SRTCaptionTrack` lines 1196–1321).

The state below holds exactly the track fields the `add_data` transition
reads or writes: `mode`, `prev_code`, the on-screen / off-screen /
roll-up buffers, the 32-slot text buffer with its cursor, and
`roll_up_length`.  The methods are embedded with the dynamic dispatch
of `SRTCaptionTrack`.  File output (`write_caption` / `write_text` printing),
the SRT frame counters and `prev_char` (which only affect the emitted
text, not these fields) are not modelled. -/

/-- The per-channel track state (`CaptionTrack.__init__`).
`roll_up_length` is `none` while the Python attribute is still unset. -/
structure TrackState where
  mode : String
  prev_code : Option String
  buffer_on_screen : List Row
  buffer_off_screen : List Row
  roll_up_buffer : List Row
  text_buffer : List (Option Row)
  text_cursor : Nat
  roll_up_length : Option Nat
deriving Repr, DecidableEq

/-- freshly constructed track -/
def initTrack : TrackState :=
  { mode := "pop_on", prev_code := none, buffer_on_screen := [],
    buffer_off_screen := [], roll_up_buffer := [],
    text_buffer := List.replicate 32 none, text_cursor := 0,
    roll_up_length := none }

/-- The `global_resume_loading` (line 908): `mode ← pop_on`. -/
def global_resume_loading (s : TrackState) : TrackState :=
  { s with mode := "pop_on" }

/-- The `SRTCaptionTrack.global_resume_direct` (line 1210): base sets
`mode ← paint_on`; the SRT override also clears `_roll_up_buffer`
(its `subtitle_start_frame` bookkeeping is unmodelled). -/
def global_resume_direct (s : TrackState) : TrackState :=
  { s with mode := "paint_on", roll_up_buffer := [] }

/-- The `global_erase_non_displayed_memory` (line 935). -/
def global_erase_non_displayed_memory (s : TrackState) : TrackState :=
  { s with buffer_off_screen := [] }

/-- The `SRTCaptionTrack.global_erase_displayed_memory` (line 1232): emits the
pending caption (output, unmodelled) and then, per the base method
(line 938), clears the roll-up buffer when in roll-up mode and the
on-screen buffer otherwise. -/
def global_erase_displayed_memory (s : TrackState) : TrackState :=
  if s.mode == "roll_up" then { s with roll_up_buffer := [] }
  else { s with buffer_on_screen := [] }

/-- The `global_flip_buffers` (line 930): swap on-screen and off-screen. -/
def global_flip_buffers (s : TrackState) : TrackState :=
  { s with buffer_on_screen := s.buffer_off_screen,
           buffer_off_screen := s.buffer_on_screen }

/-- The `CaptionTrack.global_start_roll_up` (line 914): `mode ← roll_up`,
`roll_up_length ← ROLL_UP_LEN[byte2]`, then the dynamically dispatched
erase-displayed and erase-non-displayed handlers.  Since the mode is
already `roll_up` when the erase runs, it clears the roll-up buffer and
leaves the on-screen buffer alone.  `List.lookup` returns `none` where
Python would raise a `KeyError` (never reached for the tabled roll-up
labels). -/
def global_start_roll_up (s : TrackState) (d : Row) : TrackState :=
  let s1 := { s with mode := "roll_up",
                     roll_up_length := List.lookup d.byte2 ROLL_UP_LEN }
  global_erase_non_displayed_memory (global_erase_displayed_memory s1)

/-- The `global_start_text_mode` (line 922): `mode ← text` (opening the text
sink is unmodelled). -/
def global_start_text_mode (s : TrackState) : TrackState :=
  { s with mode := "text" }

/-- The `clear_text` (line 957): blank the text buffer, cursor to 0. -/
def clear_text (s : TrackState) : TrackState :=
  { s with text_buffer := List.replicate s.text_buffer.length none,
           text_cursor := 0 }

/-- The `SRTCaptionTrack.global_text_reset` (line 1225). -/
def global_text_reset (s : TrackState) : TrackState :=
  clear_text s

/-- The `CaptionTrack._handle_global_control` (lines 863–906).  Returns the
new state and the returned truthiness: `True` on the explicitly returning
branches, `False` at the parity gate and the final else, and `False` for
the `Roll-Up Captions` branch, which falls through without a `return`
(Python returns `None`). -/
def handle_global_control (s : TrackState) (d : Row) (code : String) :
    TrackState × Bool :=
  if !(d.byte1_parity || d.byte2_parity) then (s, false)
  else if strContains code ("Resume Caption Loading") then
    let s1 := if some code ≠ s.prev_code then global_resume_loading s else s
    ({ s1 with prev_code := some code }, true)
  else if strContains code ("Resume Direct Captioning") then
    let s1 := if some code ≠ s.prev_code then global_resume_direct s else s
    ({ s1 with prev_code := some code }, true)
  else if strContains code ("End of Caption (flip memory)") then
    let s1 := if some code ≠ s.prev_code then global_flip_buffers s else s
    ({ s1 with prev_code := some code }, true)
  else if strContains code ("Erase Non-Displayed Memory") then
    (if some code ≠ s.prev_code then global_erase_non_displayed_memory s
     else s, true)
  else if strContains code ("Erase Displayed Memory") then
    (if some code ≠ s.prev_code then global_erase_displayed_memory s
     else s, true)
  else if strContains code ("Roll-Up Captions") then
    (if some code ≠ s.prev_code then global_start_roll_up s d else s, false)
  else if strContains code ("Resume Text Display") then
    (if some code ≠ s.prev_code then global_start_text_mode s else s, true)
  else if strContains code ("Text Restart") then
    (if some code ≠ s.prev_code then
       global_text_reset (global_start_text_mode s)
     else s, true)
  else (s, false)

/-- The `SRTCaptionTrack.add_off_screen` (line 1249). -/
def add_off_screen (s : TrackState) (d : Row) : TrackState :=
  { s with buffer_off_screen := s.buffer_off_screen ++ [d] }

/-- The `SRTCaptionTrack.add_on_screen` (line 1244): append, then emit the
buffer (output unmodelled). -/
def add_on_screen (s : TrackState) (d : Row) : TrackState :=
  { s with buffer_on_screen := s.buffer_on_screen ++ [d] }

/-- The `SRTCaptionTrack.add_on_screen_roll_up` (line 1252). -/
def add_on_screen_roll_up (s : TrackState) (d : Row) : TrackState :=
  { s with roll_up_buffer := s.roll_up_buffer ++ [d] }

/-- The `CaptionTrack.add_text` (line 953): store at the cursor and advance,
`text_cursor = min(text_cursor + 1, len(text_buffer) - 1)`. -/
def base_add_text (s : TrackState) (d : Row) : TrackState :=
  { s with text_buffer := s.text_buffer.set s.text_cursor (some d),
           text_cursor := min (s.text_cursor + 1) (s.text_buffer.length - 1) }

/-- The `TextCaptionTrack.add_text` (lines 1157–1178): an `Indent` label sets
the cursor to the parsed indent (regex `.*Indent (\d+)`, i.e. the last
occurrence); a `Carriage Return` repeating `prev_code` flushes (output
unmodelled) and clears; otherwise the base append runs. -/
def text_add_text (s : TrackState) (d : Row) (code : String) : TrackState :=
  let s1 :=
    if strContains code ("Indent") then
      match lastNumAfter (("Indent ").data) code.data with
      | some n => { s with text_cursor := n }
      | none => s
    else s
  if strContains code ("Carriage Return") && s1.prev_code == some code then
    clear_text s1
  else base_add_text s1 d

/-- The `SRTCaptionTrack.add_text` (lines 1271–1278): repeated
`Carriage Return` flushes and clears, otherwise defers to the
`TextCaptionTrack` method. -/
def srt_add_text (s : TrackState) (d : Row) (code : String) : TrackState :=
  if strContains code ("Carriage Return") && s.prev_code == some code then
    clear_text s
  else text_add_text s d code

/-- the mode dispatch of `add_data` (lines 851–859) -/
def nonGlobalDispatch (s : TrackState) (d : Row) (code : String) :
    TrackState :=
  if s.mode == "pop_on" then add_off_screen s d
  else if s.mode == "paint_on" then add_on_screen s d
  else if s.mode == "roll_up" then add_on_screen_roll_up s d
  else if s.mode == "text" then srt_add_text s d code
  else s

/-- The `CaptionTrack.add_data` (lines 845–861): skip rows with no code or an
all-zero pair; otherwise run the global-control handler, dispatch to the
mode handler when it did not claim the code, and record `prev_code`. -/
def add_data (s : TrackState) (d : Row) : TrackState :=
  match d.code with
  | none => s
  | some code =>
    if d.byte1 == 0 && d.byte2 == 0 then s
    else
      let gi := handle_global_control s d code
      let s2 := if !gi.2 then nonGlobalDispatch gi.1 d code else gi.1
      { s2 with prev_code := some code }

/-- a track fed a row sequence from its initial state -/
def runTrack (rows : List Row) : TrackState :=
  rows.foldl add_data initTrack

/-- The six labels `ALL_CC_CONTROL_CODES` assigns to the roll-up control
pairs `(0x14 | 0x1C, 0x25/0x26/0x27)`, with their second byte and row
count. -/
def ROLL_UP_CODES : List (String × Nat × Nat) :=
  [("CC1 Roll-Up Captions-2 Rows", 0x25, 2),
   ("CC1 Roll-Up Captions-3 Rows", 0x26, 3),
   ("CC1 Roll-Up Captions-4 Rows", 0x27, 4),
   ("CC2 Roll-Up Captions-2 Rows", 0x25, 2),
   ("CC2 Roll-Up Captions-3 Rows", 0x26, 3),
   ("CC2 Roll-Up Captions-4 Rows", 0x27, 4)]

/-! ### Invariant predicates and concrete fixtures used by the theorems -/

/-- A packet handed to `describe_xds_packet` is empty (the terminator
arrived with nothing gathered) or starts with a non-stuffing pair whose
first byte is at most 0x0e. -/
def goodPkt (l : List (Nat × Nat)) : Prop :=
  l = [] ∨ ∃ h t, l = h :: t ∧ h.1 ≤ 0x0e ∧ ¬(h.1 = 0 ∧ h.2 = 0)

/-- Invariant of the XDS gather loop: gathering implies a non-empty
buffer, the buffer starts well, and every emitted packet starts well. -/
def XdsInv (st : XdsState) : Prop :=
  (st.gather = true → st.packetbuf ≠ []) ∧ goodPkt st.packetbuf
  ∧ ∀ pkt ∈ st.emitted, goodPkt pkt

/-- Track invariant: the text buffer keeps its 32 slots and the cursor
stays within them. -/
def TrackInv (s : TrackState) : Prop :=
  s.text_buffer.length = 32 ∧ s.text_cursor ≤ 31

/-- a printable row (`Hi`), as the classifier emits it -/
def sampleTextRow : Row :=
  { row_num := 21, code := some ("Hi"), control := false,
    byte1 := 0x48, byte1_parity := true, byte2 := 0x69, byte2_parity := true }

/-- the CC1 Roll-Up Captions-2 Rows control row `(0x14, 0x25)` -/
def rollUp2Row : Row :=
  { row_num := 21, code := some ("CC1 Roll-Up Captions-2 Rows"),
    control := true, byte1 := 0x14, byte1_parity := true,
    byte2 := 0x25, byte2_parity := true }

/-- a paint-on track with one caption row on screen -/
def paintOnState : TrackState :=
  { initTrack with mode := "paint_on", buffer_on_screen := [sampleTextRow] }

/-- an Erase Displayed Memory control row received with both parity bits
bad -/
def badParityEdmRow : Row :=
  { row_num := 21, code := some ("CC1 Erase Displayed Memory"),
    control := true, byte1 := 0x14, byte1_parity := false,
    byte2 := 0x2C, byte2_parity := false }

/-- a track that last saw a Backspace -/
def prevBackspaceState : TrackState :=
  { initTrack with prev_code := some ("CC1 Backspace") }

/-! ## Theorems -/

set_option maxRecDepth 100000

/-- C9: stripping the parity bit from the SCC output table entry recovers
the input: `NO_PARITY_TO_ODD_PARITY[b] & 0x7F = b` for every `b` in
`[0, 127]`. -/
theorem no_parity_table_strips (b : Nat) (hb : b < 128) :
    NO_PARITY_TO_ODD_PARITY.getD b 0 &&& 0x7f = b := by
  revert b
  decide

/-- C9 witness: the theorem applied at `b = 3` (table entry `0x83`). -/
theorem no_parity_table_strips_witness :
    (3 : Nat) < 128 ∧ NO_PARITY_TO_ODD_PARITY.getD 3 0 &&& 0x7f = 3 :=
  ⟨by decide, no_parity_table_strips 3 (by decide)⟩

/-- C2 (code bug): with 31 characters already on the line, `Tab Offset 3`
appends `max(32 - 31, 3) = 3` spaces, taking the cursor to column 34 —
past the 32nd column that the comment in the source (and the spec) forbid, and
more than the `max(0, 32 - 31) = 1` space the claim allows. -/
theorem handle_tab_exceeds_column_32 :
    handle_tab ("CC1 Tab Offset 3") (String.mk (List.replicate 31 'A')) (" ")
      = String.mk (List.replicate 31 'A' ++ List.replicate 3 ' ')
    ∧ (handle_tab ("CC1 Tab Offset 3") (String.mk (List.replicate 31 'A'))
        (" ")).length = 34 := by
  constructor <;> decide

/-- C7 (code bug): at frame 899 the Python 3 true-division timecode of
the source renders `00:00:30;00`, while the integer drop-frame formula
of the claim renders `00:00:29;29`. -/
theorem scc_timecode_divergence :
    scc_get_timecode 899 = "00:00:30;00"
    ∧ scc_timecode_claim 899 = "00:00:29;29" := by
  constructor <;> decide

/-- The `twos_complement` maps a 7-bit byte to a non-negative value. -/
theorem twos_complement_nonneg (b : Int) (h0 : 0 ≤ b) (h1 : b < 128) :
    0 ≤ twos_complement b := by
  unfold twos_complement
  split <;> omega

/-- The `Int.land` on two naturals is `Nat.land`. -/
theorem int_land_ofNat (a b : Nat) :
    Int.land (Int.ofNat a) (Int.ofNat b) = Int.ofNat (a &&& b) := rfl

/-- the low 7 bits of a non-negative integer vanish iff it is divisible
by 128 -/
theorem land127_eq_zero_iff (s : Int) (hs : 0 ≤ s) :
    Int.land s 127 = 0 ↔ s % 128 = 0 := by
  obtain ⟨n, rfl⟩ := Int.eq_ofNat_of_zero_le hs
  have h1 : Int.land (n : Int) 127 = ((n &&& 127 : Nat) : Int) := rfl
  have hand : n &&& 127 = n % 128 := by
    have h := Nat.and_pow_two_sub_one_eq_mod n 7
    norm_num at h
    exact h
  rw [h1, hand]
  omega

/-- C3: for every non-empty packet of byte pairs,
`compute_xds_packet_checksum` accepts exactly when the sum of the 7-bit
twos-complement values of all its bytes has zero low 7 bits, i.e. is
divisible by 128. -/
theorem compute_xds_packet_checksum_iff (pb : List (Int × Int))
    (hne : pb ≠ [])
    (hb : ∀ p ∈ pb, 0 ≤ p.1 ∧ p.1 < 128 ∧ 0 ≤ p.2 ∧ p.2 < 128) :
    (compute_xds_packet_checksum pb = true ↔
      ((pb.map fun p => twos_complement p.1 + twos_complement p.2).sum) % 128
        = 0) := by
  have hsum : 0 ≤ ((pb.map fun p =>
      twos_complement p.1 + twos_complement p.2).sum) := by
    apply List.sum_nonneg
    intro x hx
    obtain ⟨p, hp, rfl⟩ := List.mem_map.mp hx
    obtain ⟨h1, h2, h3, h4⟩ := hb p hp
    have t1 := twos_complement_nonneg p.1 h1 h2
    have t2 := twos_complement_nonneg p.2 h3 h4
    omega
  cases pb with
  | nil => exact absurd rfl hne
  | cons q rest =>
    unfold compute_xds_packet_checksum
    rw [beq_iff_eq]
    exact land127_eq_zero_iff _ hsum

/-- C3 witness: the packet `[(0x01, 0x7F)]` sums to `127 + 1 = 128 ≡ 0`
and is accepted. -/
theorem compute_xds_packet_checksum_iff_witness :
    compute_xds_packet_checksum [((1 : Int), (127 : Int))] = true := by
  have h := compute_xds_packet_checksum_iff [((1 : Int), (127 : Int))]
    (by decide) (by decide)
  exact h.mpr (by decide)

/-- appending to a well-started buffer keeps it well started -/
theorem goodPkt_append (l : List (Nat × Nat)) (p : Nat × Nat)
    (h : goodPkt l) (hp : p.1 ≤ 0x0e ∧ ¬(p.1 = 0 ∧ p.2 = 0)) :
    goodPkt (l ++ [p]) := by
  rcases h with rfl | ⟨hd, tl, rfl, h1, h2⟩
  · exact Or.inr ⟨p, [], rfl, hp.1, hp.2⟩
  · exact Or.inr ⟨hd, tl ++ [p], rfl, h1, h2⟩

/-- appending anything to a non-empty well-started buffer keeps it well
started -/
theorem goodPkt_append_of_ne (l : List (Nat × Nat)) (p : Nat × Nat)
    (h : goodPkt l) (hne : l ≠ []) : goodPkt (l ++ [p]) := by
  rcases h with rfl | ⟨hd, tl, rfl, h1, h2⟩
  · exact absurd rfl hne
  · exact Or.inr ⟨hd, tl ++ [p], rfl, h1, h2⟩

/-- one step of the XDS gather loop preserves the invariant -/
theorem xds_step_inv (st : XdsState) (p : Nat × Nat) (h : XdsInv st) :
    XdsInv (xds_step st p) := by
  obtain ⟨hg, hb, he⟩ := h
  unfold xds_step
  by_cases h0 : (p.1 == 0 && p.2 == 0) = true
  · simp only [h0, if_true]
    exact ⟨hg, hb, he⟩
  · simp only [h0, Bool.false_eq_true, if_false]
    have hnz : ¬(p.1 = 0 ∧ p.2 = 0) := by
      intro hz
      exact h0 (by simp [hz.1, hz.2])
    by_cases hle : p.1 ≤ 0x0e
    · have hf : (p.1 == 0x0f) = false := by
        have : p.1 ≠ 0x0f := by omega
        simpa using this
      simp only [if_pos hle, hf, Bool.false_eq_true, if_false, if_true]
      refine ⟨fun _ => by simp, goodPkt_append _ _ hb ⟨hle, hnz⟩, he⟩
    · simp only [if_neg hle]
      have hbuf : goodPkt (if st.gather then st.packetbuf ++ [p]
          else st.packetbuf) := by
        by_cases hgath : st.gather
        · simp only [if_pos hgath]
          exact goodPkt_append_of_ne _ _ hb (hg hgath)
        · simp only [if_neg hgath]
          exact hb
      by_cases hf : (p.1 == 0x0f) = true
      · simp only [hf, if_true]
        refine ⟨fun hx => absurd hx (by simp), Or.inl rfl, ?_⟩
        intro pkt hpkt
        rcases List.mem_append.mp hpkt with hin | hin
        · exact he pkt hin
        · rcases List.mem_singleton.mp hin with rfl
          exact hbuf
      · simp only [hf, Bool.false_eq_true, if_false]
        refine ⟨?_, hbuf, he⟩
        intro hgath
        by_cases hgath' : st.gather
        · simp only [if_pos hgath']
          simp
        · simp only [if_neg hgath'] at hgath ⊢
          exact hg hgath

/-- the invariant holds after any run of the gather loop -/
theorem xds_run_inv (ps : List (Nat × Nat)) : XdsInv (xds_run ps) := by
  have hstep : ∀ (l : List (Nat × Nat)) (st : XdsState), XdsInv st →
      XdsInv (l.foldl xds_step st) := by
    intro l
    induction l with
    | nil => intro st h; exact h
    | cons p rest ih => intro st h; exact ih _ (xds_step_inv st p h)
  refine hstep ps xdsInit ⟨?_, Or.inl rfl, ?_⟩
  · intro h
    simp [xdsInit] at h
  · intro pkt hpkt
    simp [xdsInit] at hpkt

/-- C8 (amended): every packet the gather loop hands to
`describe_xds_packet` is empty or starts with a non-stuffing pair whose
first byte is at most `0x0E` (a zero first byte with a non-zero second
byte also begins a packet, since the source tests `b1 <= 0x0e`), and
all-zero stuffing pairs never alter the gather state. -/
theorem xds_packet_framing (ps : List (Nat × Nat)) :
    (∀ pkt ∈ (xds_run ps).emitted, goodPkt pkt)
    ∧ (∀ (st : XdsState) (p : Nat × Nat), p = (0, 0) → xds_step st p = st) := by
  refine ⟨(xds_run_inv ps).2.2, ?_⟩
  intro st p hp
  subst hp
  rfl

/-- C8 witness: the theorem applied to the two-pair input
`[(0x01, 0x03), (0x0F, 0x00)]`, whose single emitted packet starts with
`(0x01, 0x03)`, and to the stuffing pair at the initial state. -/
theorem xds_packet_framing_witness :
    goodPkt [((1 : Nat), (3 : Nat)), (15, 0)]
    ∧ xds_step xdsInit (0, 0) = xdsInit := by
  constructor
  · exact (xds_packet_framing [(1, 3), (15, 0)]).1 [(1, 3), (15, 0)] (by decide)
  · exact (xds_packet_framing []).2 xdsInit (0, 0) rfl

/-- C8 counterexample: the pair `(0x00, 0x05)` begins a packet (the
source tests `b1 <= 0x0e`, not `0x01 <= b1`), so the packet handed to
`describe_xds_packet` starts with first byte `0x00 ∉ [0x01, 0x0E]`. -/
theorem xds_packet_start_byte_zero :
    (xds_run [(0, 5), (0x0f, 0x7b)]).emitted = [[(0, 5), (0x0f, 0x7b)]]
    ∧ ¬(∀ pkt ∈ (xds_run [(0, 5), (0x0f, 0x7b)]).emitted,
        ∀ q ∈ pkt.take 1, 0x01 ≤ q.1) := by
  constructor
  · decide
  · decide

/-- C1: the parity policy of `extract_closed_caption_bytes`: a bad
second-byte parity drops control rows and replaces the second byte with
`0x7F` otherwise; a bad first-byte parity forces the row to non-control
with first byte `0x7F`; and the function is exactly the per-row policy
mapped over the slicer rows. -/
theorem extract_parity_policy (row_num b1 b2 : Nat) (p1 p2 : Bool) :
    (p2 = false → is_control b1 b2 = true →
      classifyRow row_num b1 p1 b2 p2 = none)
    ∧ (p2 = false → is_control b1 b2 = false →
        ∀ r, classifyRow row_num b1 p1 b2 p2 = some r → r.byte2 = 0x7f)
    ∧ (p1 = false →
        ∀ r, classifyRow row_num b1 p1 b2 p2 = some r →
          r.control = false ∧ r.byte1 = 0x7f)
    ∧ (∀ rows, extract_closed_caption_bytes rows
        = rows.filterMap fun r =>
            classifyRow r.1 r.2.1 r.2.2.1 r.2.2.2.1 r.2.2.2.2) := by
  refine ⟨?_, ?_, ?_, fun rows => rfl⟩
  · intro hp2 hc
    simp [classifyRow, hp2, hc]
  · intro hp2 hc r hr
    simp [classifyRow, hp2, hc] at hr
    simp [← hr]
  · intro hp1 r hr
    unfold classifyRow at hr
    rw [hp1] at hr
    by_cases h2 : (!p2 && is_control b1 b2) = true
    · rw [if_pos h2] at hr
      exact absurd hr (by simp)
    · rw [if_neg h2] at hr
      simp only [Option.some_inj] at hr
      subst hr
      exact ⟨rfl, rfl⟩

/-- C1 witness: row `(0x14, 0x2C)` (Erase Displayed Memory) with bad
second-byte parity is dropped; a printable row with bad second-byte
parity keeps the row with `byte2 = 0x7F`. -/
theorem extract_parity_policy_witness :
    classifyRow 21 0x14 true 0x2C false = none
    ∧ Option.map Row.byte2 (classifyRow 21 0x48 true 0x69 false)
        = some 0x7f := by
  constructor
  · exact (extract_parity_policy 21 0x14 0x2C true false).1 rfl (by decide)
  · have h := (extract_parity_policy 21 0x48 0x69 true false).2.1 rfl (by decide)
    cases hr : classifyRow 21 0x48 true 0x69 false with
    | none => exact absurd hr (by decide)
    | some r => simp [h r hr]


/-- in roll-up mode the non-global dispatch appends to the roll-up
buffer -/
theorem nonGlobalDispatch_roll_up (s : TrackState) (d : Row) (code : String)
    (hm : s.mode = "roll_up") :
    nonGlobalDispatch s d code = add_on_screen_roll_up s d := by
  unfold nonGlobalDispatch
  rw [hm]
  rfl

/-- the state reached by a fresh roll-up control code, as one record -/
def rollUpResult (s : TrackState) (d : Row) (code : String) : TrackState :=
  { s with
    mode := "roll_up",
    roll_up_length := List.lookup d.byte2 ROLL_UP_LEN,
    roll_up_buffer := [d],
    buffer_off_screen := [],
    prev_code := some code }

/-- the state effect of a fresh roll-up control code on the whole track
state: mode and length set, roll-up and off-screen buffers cleared, the
code itself appended to the roll-up buffer (the handler does not mark it
as global), `prev_code` recorded — and every other field, the on-screen
buffer included, untouched -/
theorem roll_up_effect_general (s : TrackState) (d : Row) (code : String)
    (hc : d.code = some code) (h1 : d.byte1_parity = true) (hz : d.byte2 ≠ 0)
    (hA : strContains code ("Resume Caption Loading") = false)
    (hB : strContains code ("Resume Direct Captioning") = false)
    (hC : strContains code ("End of Caption (flip memory)") = false)
    (hD : strContains code ("Erase Non-Displayed Memory") = false)
    (hE : strContains code ("Erase Displayed Memory") = false)
    (hF : strContains code ("Roll-Up Captions") = true)
    (hprev : s.prev_code ≠ some code) :
    add_data s d = rollUpResult s d code := by
  have hprev' : some code ≠ s.prev_code := fun h => hprev h.symm
  have hg : handle_global_control s d code = (global_start_roll_up s d, false) := by
    unfold handle_global_control
    simp [h1, hA, hB, hC, hD, hE, hF, hprev']
  have hb2z : (d.byte2 == 0) = false := by simpa using hz
  have hm : (global_start_roll_up s d).mode = "roll_up" := by
    unfold global_start_roll_up global_erase_displayed_memory
      global_erase_non_displayed_memory
    simp
  have hdisp := nonGlobalDispatch_roll_up (global_start_roll_up s d) d code hm
  have key : add_data s d
      = { add_on_screen_roll_up (global_start_roll_up s d) d with
          prev_code := some code } := by
    simp [add_data, hc, hb2z, hg, hdisp]
  rw [key]
  unfold rollUpResult add_on_screen_roll_up global_start_roll_up
    global_erase_displayed_memory global_erase_non_displayed_memory
  simp

/-- C5 (amended): acting on a fresh `Roll-Up Captions N Rows` code sets
`mode = roll_up` and `roll_up_length = N` and empties the non-displayed
buffer, but the displayed (on-screen) buffer is left unchanged — the
erase runs after the mode switch and so clears the roll-up buffer
instead, which then receives the roll-up code itself. -/
theorem roll_up_start_effect (s : TrackState) (d : Row) (code : String)
    (b2 N : Nat) (hmem : (code, b2, N) ∈ ROLL_UP_CODES)
    (hc : d.code = some code) (hb2 : d.byte2 = b2)
    (h1 : d.byte1_parity = true) (hprev : s.prev_code ≠ some code) :
    (add_data s d).mode = "roll_up"
    ∧ (add_data s d).roll_up_length = some N
    ∧ (add_data s d).buffer_off_screen = []
    ∧ (add_data s d).buffer_on_screen = s.buffer_on_screen
    ∧ (add_data s d).roll_up_buffer = [d]
    ∧ (add_data s d).prev_code = some code := by
  fin_cases hmem <;>
  · rw [roll_up_effect_general s d _ hc h1 (by rw [hb2]; decide)
      (by decide) (by decide) (by decide) (by decide) (by decide)
      (by decide) hprev]
    unfold rollUpResult
    refine ⟨rfl, ?_, rfl, rfl, rfl, rfl⟩
    show List.lookup d.byte2 ROLL_UP_LEN = _
    rw [hb2]
    decide

/-- C5 witness: the theorem applied to a paint-on track holding one
on-screen row, receiving `CC1 Roll-Up Captions-2 Rows`. -/
theorem roll_up_start_effect_witness :
    (add_data paintOnState rollUp2Row).mode = "roll_up"
    ∧ (add_data paintOnState rollUp2Row).roll_up_length = some 2
    ∧ (add_data paintOnState rollUp2Row).buffer_off_screen = []
    ∧ (add_data paintOnState rollUp2Row).buffer_on_screen
        = paintOnState.buffer_on_screen
    ∧ (add_data paintOnState rollUp2Row).roll_up_buffer = [rollUp2Row]
    ∧ (add_data paintOnState rollUp2Row).prev_code
        = some ("CC1 Roll-Up Captions-2 Rows") :=
  roll_up_start_effect paintOnState rollUp2Row _ 0x25 2 (by decide)
    rfl rfl rfl (by decide)

/-- C5 counterexample: a paint-on track holding one on-screen row acts
on `CC1 Roll-Up Captions-2 Rows`; the displayed (on-screen) buffer is
not cleared, contradicting the claim that both buffers end up empty. -/
theorem roll_up_keeps_on_screen_buffer :
    (add_data paintOnState rollUp2Row).mode = "roll_up"
    ∧ (add_data paintOnState rollUp2Row).roll_up_length = some 2
    ∧ (add_data paintOnState rollUp2Row).buffer_on_screen = [sampleTextRow]
    ∧ (add_data paintOnState rollUp2Row).buffer_on_screen ≠ [] := by
  refine ⟨?_, ?_, ?_, ?_⟩ <;> decide

/-- C6 (amended): when both bytes of a control code have bad parity the
handler does ignore it as a global code (it returns false and takes no
global action), but `add_data` then dispatches the pair to the non-global
handler of the current mode and still records the code in `prev_code`. -/
theorem bad_parity_control_dispatch (s : TrackState) (d : Row)
    (code : String) (hc : d.code = some code)
    (h1 : d.byte1_parity = false) (h2 : d.byte2_parity = false)
    (hz : ¬(d.byte1 = 0 ∧ d.byte2 = 0)) :
    handle_global_control s d code = (s, false)
    ∧ add_data s d
      = { nonGlobalDispatch s d code with prev_code := some code } := by
  have hg : handle_global_control s d code = (s, false) := by
    unfold handle_global_control
    rw [h1, h2]
    rfl
  refine ⟨hg, ?_⟩
  have hbz : (d.byte1 == 0 && d.byte2 == 0) = false := by
    cases hb1 : (d.byte1 == 0) <;> cases hb2 : (d.byte2 == 0) <;> simp_all
  simp [add_data, hc, hbz, hg]

/-- C6 witness: the theorem applied to a pop-on track whose previous code
was a Backspace, receiving an Erase Displayed Memory row with both
parity bits bad. -/
theorem bad_parity_control_dispatch_witness :
    handle_global_control prevBackspaceState badParityEdmRow
        ("CC1 Erase Displayed Memory") = (prevBackspaceState, false)
    ∧ add_data prevBackspaceState badParityEdmRow
      = { nonGlobalDispatch prevBackspaceState badParityEdmRow
            ("CC1 Erase Displayed Memory") with
          prev_code := some ("CC1 Erase Displayed Memory") } :=
  bad_parity_control_dispatch prevBackspaceState badParityEdmRow _
    rfl rfl rfl (by decide)

/-- C6 counterexample: an Erase Displayed Memory row with both parity
bits bad still overwrites `prev_code` and is appended to the off-screen
buffer, contradicting "no state-changing action is taken, and prev_code
keeps its prior value". -/
theorem bad_parity_updates_prev_code :
    prevBackspaceState.prev_code = some ("CC1 Backspace")
    ∧ (add_data prevBackspaceState badParityEdmRow).prev_code
        = some ("CC1 Erase Displayed Memory")
    ∧ (add_data prevBackspaceState badParityEdmRow).prev_code
        ≠ prevBackspaceState.prev_code
    ∧ (add_data prevBackspaceState badParityEdmRow).buffer_off_screen
        = [badParityEdmRow] := by
  refine ⟨rfl, ?_, ?_, ?_⟩ <;> decide

/-- clearing the text buffer keeps its 32 slots and zeroes the cursor -/
theorem clear_text_inv (s : TrackState) (hl : s.text_buffer.length = 32) :
    TrackInv (clear_text s) := by
  refine ⟨?_, ?_⟩ <;> simp [clear_text, hl]

/-- the base text append caps the cursor at slot 31 whatever it was -/
theorem base_add_text_inv (s : TrackState) (d : Row)
    (hl : s.text_buffer.length = 32) :
    TrackInv (base_add_text s d) := by
  refine ⟨?_, ?_⟩ <;> simp [base_add_text, hl]

/-- The `TextCaptionTrack.add_text` keeps the invariant: even after an
`Indent` label moves the cursor, the step ends in a clear (cursor 0) or a
base append (cursor capped at 31) -/
theorem text_add_text_inv (s : TrackState) (d : Row) (code : String)
    (hl : s.text_buffer.length = 32) :
    TrackInv (text_add_text s d code) := by
  have hstep : ∀ s1 : TrackState, s1.text_buffer.length = 32 →
      TrackInv (if strContains code ("Carriage Return")
          && s1.prev_code == some code then clear_text s1
        else base_add_text s1 d) := by
    intro s1 hl1
    split
    · exact clear_text_inv s1 hl1
    · exact base_add_text_inv s1 d hl1
  unfold text_add_text
  by_cases hA : strContains code ("Indent") = true
  · rw [if_pos hA]
    cases hm : lastNumAfter (("Indent ").data) code.data with
    | some n =>
      simp only [hm]
      exact hstep { s with text_cursor := n } (by simpa using hl)
    | none =>
      simp only [hm]
      exact hstep _ hl
  · rw [if_neg hA]
    exact hstep _ hl

/-- The `SRTCaptionTrack.add_text` keeps the invariant -/
theorem srt_add_text_inv (s : TrackState) (d : Row) (code : String)
    (hl : s.text_buffer.length = 32) :
    TrackInv (srt_add_text s d code) := by
  unfold srt_add_text
  split
  · exact clear_text_inv s hl
  · exact text_add_text_inv s d code hl

/-- the non-global mode dispatch keeps the invariant -/
theorem nonGlobalDispatch_inv (s : TrackState) (d : Row) (code : String)
    (hl : s.text_buffer.length = 32) (hcur : s.text_cursor ≤ 31) :
    TrackInv (nonGlobalDispatch s d code) := by
  unfold nonGlobalDispatch
  split
  · exact ⟨hl, hcur⟩
  · split
    · exact ⟨hl, hcur⟩
    · split
      · exact ⟨hl, hcur⟩
      · split
        · exact srt_add_text_inv s d code hl
        · exact ⟨hl, hcur⟩


/-- recording `prev_code` does not touch the text fields -/
theorem trackinv_prev (t : TrackState) (c : String) (h : TrackInv t) :
    TrackInv { t with prev_code := some c } :=
  ⟨h.1, h.2⟩

/-- an `if` between two invariant-preserving states preserves the
invariant -/
theorem trackinv_ite (P : Prop) [Decidable P] (t u : TrackState)
    (ht : TrackInv t) (hu : TrackInv u) : TrackInv (if P then t else u) := by
  split
  · exact ht
  · exact hu

set_option maxHeartbeats 1000000 in
/-- every global control handler keeps the invariant -/
theorem handle_global_inv (s : TrackState) (d : Row) (code : String)
    (hl : s.text_buffer.length = 32) (hcur : s.text_cursor ≤ 31) :
    TrackInv (handle_global_control s d code).1 := by
  have hbase : TrackInv s := ⟨hl, hcur⟩
  have hrl : TrackInv (global_resume_loading s) := ⟨hl, hcur⟩
  have hrd : TrackInv (global_resume_direct s) := ⟨hl, hcur⟩
  have hfb : TrackInv (global_flip_buffers s) := ⟨hl, hcur⟩
  have hen : TrackInv (global_erase_non_displayed_memory s) := ⟨hl, hcur⟩
  have hed1 : ∀ t : TrackState, TrackInv t →
      TrackInv (global_erase_displayed_memory t) := by
    intro t ht
    unfold global_erase_displayed_memory
    split
    · exact ⟨ht.1, ht.2⟩
    · exact ⟨ht.1, ht.2⟩
  have hed : TrackInv (global_erase_displayed_memory s) := hed1 s hbase
  have hsr : TrackInv (global_start_roll_up s d) := by
    have h1 := hed1 { s with mode := "roll_up", roll_up_length := List.lookup d.byte2 ROLL_UP_LEN } ⟨hl, hcur⟩
    unfold global_start_roll_up
    exact ⟨h1.1, h1.2⟩
  have hst : TrackInv (global_start_text_mode s) := ⟨hl, hcur⟩
  have htr : TrackInv (global_text_reset (global_start_text_mode s)) :=
    clear_text_inv _ hl
  unfold handle_global_control
  split
  · exact hbase
  · split
    · exact trackinv_prev _ code (trackinv_ite _ _ _ hrl hbase)
    · split
      · exact trackinv_prev _ code (trackinv_ite _ _ _ hrd hbase)
      · split
        · exact trackinv_prev _ code (trackinv_ite _ _ _ hfb hbase)
        · split
          · exact trackinv_ite _ _ _ hen hbase
          · split
            · exact trackinv_ite _ _ _ hed hbase
            · split
              · exact trackinv_ite _ _ _ hsr hbase
              · split
                · exact trackinv_ite _ _ _ hst hbase
                · split
                  · exact trackinv_ite _ _ _ htr hbase
                  · exact hbase

/-- one `add_data` step keeps the invariant -/
theorem add_data_inv (s : TrackState) (d : Row) (h : TrackInv s) :
    TrackInv (add_data s d) := by
  obtain ⟨hl, hcur⟩ := h
  unfold add_data
  split
  · exact ⟨hl, hcur⟩
  · next code heq =>
    split
    · exact ⟨hl, hcur⟩
    · have hgi := handle_global_inv s d code hl hcur
      have h2 : TrackInv (if (!(handle_global_control s d code).2) = true
          then nonGlobalDispatch (handle_global_control s d code).1 d code
          else (handle_global_control s d code).1) := by
        split
        · exact nonGlobalDispatch_inv _ d code hgi.1 hgi.2
        · exact hgi
      exact trackinv_prev _ code h2

/-- the invariant holds after any row sequence from the initial track -/
theorem runTrack_inv (rows : List Row) : TrackInv (runTrack rows) := by
  have hstep : ∀ (l : List Row) (s : TrackState), TrackInv s →
      TrackInv (l.foldl add_data s) := by
    intro l
    induction l with
    | nil => intro s h; exact h
    | cons r rest ih => intro s h; exact ih _ (add_data_inv s r h)
  exact hstep rows initTrack ⟨by simp [initTrack], by simp [initTrack]⟩

/-- C10: over every `add_data` sequence the text cursor stays in
`[0, 31]` and the text buffer keeps its 32 slots; clearing resets the
cursor to 0 and the base append advances it by one, capped at the last
slot; and the indent value parsed (regex `.*Indent (\d+)`) from every
label of the control-code table is at most 28. -/
theorem text_cursor_bounded :
    (∀ rows : List Row, (runTrack rows).text_cursor ≤ 31
      ∧ (runTrack rows).text_buffer.length = 32)
    ∧ (∀ s : TrackState, (clear_text s).text_cursor = 0)
    ∧ (∀ (s : TrackState) (d : Row), (base_add_text s d).text_cursor
        = min (s.text_cursor + 1) (s.text_buffer.length - 1))
    ∧ (∀ kv ∈ ALL_CC_CONTROL_CODES,
        (lastNumAfter (("Indent ").data) kv.2.data).getD 0 ≤ 28) := by
  refine ⟨?_, fun s => rfl, fun s d => rfl, ?_⟩
  · intro rows
    have h := runTrack_inv rows
    exact ⟨h.2, h.1⟩
  · intro kv hkv
    have hall : ALL_CC_CONTROL_CODES.all (fun kv =>
        decide ((lastNumAfter (("Indent ").data) kv.2.data).getD 0 ≤ 28))
          = true := by decide
    exact of_decide_eq_true (List.all_eq_true.mp hall kv hkv)

/-- C10 witness: the theorem applied to a concrete two-row sequence and
to the deepest indent label in the table (`Indent 28`). -/
theorem text_cursor_bounded_witness :
    (runTrack [rollUp2Row, sampleTextRow]).text_cursor ≤ 31
    ∧ (lastNumAfter (("Indent ").data)
        ("CC1 Pre: Indent 28 row 1").data).getD 0 ≤ 28 :=
  ⟨(text_cursor_bounded.1 [rollUp2Row, sampleTextRow]).1,
   text_cursor_bounded.2.2.2 ((0x11, 0x5E), ("CC1 Pre: Indent 28 row 1"))
     (by decide)⟩
